import Mathlib

/-!
Shallow embedding of the cm5-local-scripts safety monitors and UPS
benchmark tool, together with proofs of the specified properties.

Sources embedded:
- `scripts/ina219_safety.py` (battery monitor, namespace `Ina219`)
- `safety-scripts/pct2075_safety.py` (temperature monitor, namespace `Pct2075`)
- `scripts/mcp9601_safety.py` (thermocouple monitor, namespace `Mcp9601`)
- `scripts/ups_benchmark.py` (benchmark tool, namespace `UpsBenchmark`)

Python floats are modelled as rationals (`ℚ`); the monitored quantities
are linear interpolations and comparisons, exact over `ℚ`.
Each monitor's loop body is embedded as a pure step function
`Config → MonitorState → Option Reading → Action × MonitorState`, where
`Option.none` models a sensor read that raised an exception.
-/

namespace CM5

/-- The observable actions one loop iteration of a monitor can take:
nothing, raise the low/high warning log line, clear it, trigger the OS
shutdown path, or emit the critical sensor-failure escalation. -/
inductive Action where
  | none
  | warnRaised
  | warnCleared
  | shutdown
  | critical
deriving DecidableEq, Repr

/-- Mutable loop state of one monitor: the `consecutive_failures` counter
and the `warning_logged` flag (called `warning_active` in the spec). -/
structure MonitorState where
  consecutive_failures : ℕ
  warning_active : Bool
deriving DecidableEq, Repr

/-- Both loop-local variables start at zero/false. -/
def initialState : MonitorState := ⟨0, false⟩

/-- `MAX_CONSECUTIVE_FAILURES = 5` in all three monitor scripts. -/
def MAX_CONSECUTIVE_FAILURES : ℕ := 5

/-- Run a monitor's step function over a list of read outcomes, collecting
the emitted actions and the final state.  After a `shutdown` action the
script calls `sys.exit(1)`, so the run stops there. -/
def runSteps {σ ρ : Type} (step : σ → ρ → Action × σ) : σ → List ρ → List Action × σ
  | st, [] => ([], st)
  | st, r :: rs =>
    let p := step st r
    if p.1 = Action.shutdown then ([p.1], p.2)
    else
      let q := runSteps step p.2 rs
      (p.1 :: q.1, q.2)

namespace Ina219

/-- V per cell at 100%. -/
def CELL_VOLTAGE_FULL : ℚ := 4.2
/-- V per cell at 0%. -/
def CELL_VOLTAGE_EMPTY : ℚ := 3.0
/-- 3S battery pack. -/
def DEFAULT_CELL_COUNT : ℕ := 3
/-- INA219 max bus voltage is 26V; 6S = 25.2V max. -/
def MAX_CELL_COUNT : ℕ := 6

/-- Battery percentage by linear interpolation between empty (3.0V/cell)
and full (4.2V/cell), clamped to 0-100%.  This is the exact-rational
idealization of the script's binary64 float arithmetic; the rounding
itself is modelled bit-faithfully by `calculate_battery_percent64`
further below. -/
def calculate_battery_percent (voltage : ℚ) (cell_count : ℕ) : ℚ :=
  let voltage_full := CELL_VOLTAGE_FULL * cell_count
  let voltage_empty := CELL_VOLTAGE_EMPTY * cell_count
  let voltage_range := voltage_full - voltage_empty
  let percent := ((voltage - voltage_empty) / voltage_range) * 100
  max 0 (min 100 percent)

/-- The battery monitor's configuration fields that the loop reads. -/
structure Config where
  warning_battery_percent : ℚ
  shutdown_battery_percent : ℚ
  battery_cell_count : ℕ

/-- One successful INA219 read: bus voltage, shunt voltage, signed current
in milliamps. -/
structure Reading where
  bus_voltage : ℚ
  shunt_voltage : ℚ
  current_ma : ℚ

/-- `is_charging = current_ma > 0`. -/
abbrev Reading.is_charging (r : Reading) : Prop := 0 < r.current_ma

/-- One iteration of the `while True` loop body of `ina219_safety.main`.
`Option.none` models the `except` path (sensor read raised). -/
def step (cfg : Config) (st : MonitorState) : Option Reading → Action × MonitorState
  | Option.none =>
    let consecutive_failures := st.consecutive_failures + 1
    if consecutive_failures ≥ MAX_CONSECUTIVE_FAILURES then
      (Action.critical, { st with consecutive_failures := 0 })
    else
      (Action.none, { st with consecutive_failures := consecutive_failures })
  | Option.some r =>
    let voltage := r.bus_voltage + r.shunt_voltage
    let battery_percent := calculate_battery_percent voltage cfg.battery_cell_count
    let st1 : MonitorState := { st with consecutive_failures := 0 }
    if ¬ r.is_charging ∧ battery_percent ≤ cfg.shutdown_battery_percent then
      (Action.shutdown, st1)
    else if ¬ r.is_charging ∧ battery_percent ≤ cfg.warning_battery_percent then
      if st1.warning_active = false then
        (Action.warnRaised, { st1 with warning_active := true })
      else
        (Action.none, st1)
    else
      if st1.warning_active = true then
        (Action.warnCleared, { st1 with warning_active := false })
      else
        (Action.none, st1)

/-- `ina219_safety.main` up to and including the monitoring loop: the two
startup validations (`sys.exit(1)` modelled as `Except.error 1`), then the
loop over the given read outcomes. -/
def program (cfg : Config) (readings : List (Option Reading)) :
    Except ℕ (List Action × MonitorState) :=
  if cfg.warning_battery_percent ≤ cfg.shutdown_battery_percent then
    Except.error 1
  else if ¬ (1 ≤ cfg.battery_cell_count ∧ cfg.battery_cell_count ≤ MAX_CELL_COUNT) then
    Except.error 1
  else
    Except.ok (runSteps (step cfg) initialState readings)

end Ina219

namespace Pct2075

/-- The temperature monitor's configuration fields that the loop reads. -/
structure Config where
  warning_temp_c : ℚ
  shutdown_temp_c : ℚ

/-- One iteration of the `while True` loop body of `pct2075_safety.main`.
A successful read is the Celsius temperature; `Option.none` models the
`except` path. -/
def step (cfg : Config) (st : MonitorState) : Option ℚ → Action × MonitorState
  | Option.none =>
    let consecutive_failures := st.consecutive_failures + 1
    if consecutive_failures ≥ MAX_CONSECUTIVE_FAILURES then
      (Action.critical, { st with consecutive_failures := 0 })
    else
      (Action.none, { st with consecutive_failures := consecutive_failures })
  | Option.some temperature =>
    let st1 : MonitorState := { st with consecutive_failures := 0 }
    if temperature ≥ cfg.shutdown_temp_c then
      (Action.shutdown, st1)
    else if temperature ≥ cfg.warning_temp_c then
      if st1.warning_active = false then
        (Action.warnRaised, { st1 with warning_active := true })
      else
        (Action.none, st1)
    else
      if st1.warning_active = true then
        (Action.warnCleared, { st1 with warning_active := false })
      else
        (Action.none, st1)

/-- `pct2075_safety.main` up to and including the monitoring loop: the
threshold-ordering validation (`sys.exit(1)` as `Except.error 1`), then
the loop over the given read outcomes. -/
def program (cfg : Config) (readings : List (Option ℚ)) :
    Except ℕ (List Action × MonitorState) :=
  if cfg.warning_temp_c ≥ cfg.shutdown_temp_c then
    Except.error 1
  else
    Except.ok (runSteps (step cfg) initialState readings)

end Pct2075

namespace Mcp9601

/-- Valid thermocouple types accepted by the config validation. -/
def VALID_THERMOCOUPLE_TYPES : List String :=
  ["K", "J", "T", "N", "S", "E", "B", "R"]

/-- The thermocouple monitor's configuration fields that the loop reads. -/
structure Config where
  warning_temp_c : ℚ
  shutdown_temp_c : ℚ
  thermocouple_type : String

/-- One successful MCP9601 read: hot-junction (thermocouple) temperature
and ambient (cold-junction) temperature. -/
structure Reading where
  temperature : ℚ
  ambient_temperature : ℚ

/-- One iteration of the `while True` loop body of `mcp9601_safety.main`.
Threshold decisions use the hot-junction temperature `hot_temp`; the
ambient temperature is only logged. -/
def step (cfg : Config) (st : MonitorState) : Option Reading → Action × MonitorState
  | Option.none =>
    let consecutive_failures := st.consecutive_failures + 1
    if consecutive_failures ≥ MAX_CONSECUTIVE_FAILURES then
      (Action.critical, { st with consecutive_failures := 0 })
    else
      (Action.none, { st with consecutive_failures := consecutive_failures })
  | Option.some r =>
    let hot_temp := r.temperature
    let st1 : MonitorState := { st with consecutive_failures := 0 }
    if hot_temp ≥ cfg.shutdown_temp_c then
      (Action.shutdown, st1)
    else if hot_temp ≥ cfg.warning_temp_c then
      if st1.warning_active = false then
        (Action.warnRaised, { st1 with warning_active := true })
      else
        (Action.none, st1)
    else
      if st1.warning_active = true then
        (Action.warnCleared, { st1 with warning_active := false })
      else
        (Action.none, st1)

/-- `mcp9601_safety.main` up to and including the monitoring loop: the
threshold-ordering and thermocouple-type validations, then the loop. -/
def program (cfg : Config) (readings : List (Option Reading)) :
    Except ℕ (List Action × MonitorState) :=
  if cfg.warning_temp_c ≥ cfg.shutdown_temp_c then
    Except.error 1
  else if cfg.thermocouple_type ∉ VALID_THERMOCOUPLE_TYPES then
    Except.error 1
  else
    Except.ok (runSteps (step cfg) initialState readings)

end Mcp9601

namespace UpsBenchmark

/-- Same interpolation as `ina219_safety.calculate_battery_percent`,
duplicated in `ups_benchmark.py` (same exact-rational idealization of
the float arithmetic). -/
def calculate_battery_percent (voltage : ℚ) (cell_count : ℕ) : ℚ :=
  let voltage_full := (4.2 : ℚ) * cell_count
  let voltage_empty := (3.0 : ℚ) * cell_count
  let voltage_range := voltage_full - voltage_empty
  let percent := ((voltage - voltage_empty) / voltage_range) * 100
  max 0 (min 100 percent)

/-- One CPU-burn worker, observable only through its stop event
(`multiprocessing.Event`, set to request a graceful stop). -/
structure BurnWorker where
  stop_event : Bool
deriving DecidableEq, Repr

/-- The pool of CPU stress workers: its fixed bound and the list of
live workers (the parallel `workers`/`stop_events` lists of the source,
zipped into one list). -/
structure WorkerPool where
  max_workers : ℕ
  workers : List BurnWorker
deriving DecidableEq, Repr

/-- The outcome of one `set_worker_count` call: the returned live count,
how many workers were spawned and stopped by it, and the updated pool. -/
structure SetCountResult where
  result : ℕ
  spawned : ℕ
  stopped : ℕ
  pool : WorkerPool
deriving DecidableEq, Repr

/-- `WorkerPool.set_worker_count`: clamp the request to
`[0, max_workers]`, spawn or stop the difference (stops pop from the end
of the lists), and return the resulting live count. -/
def WorkerPool.set_worker_count (p : WorkerPool) (count : ℤ) : SetCountResult :=
  let clamped := (max 0 (min count (p.max_workers : ℤ))).toNat
  let current := p.workers.length
  if clamped > current then
    { result := clamped, spawned := clamped - current, stopped := 0,
      pool := { p with
        workers := p.workers ++ List.replicate (clamped - current) ⟨false⟩ } }
  else if clamped < current then
    { result := clamped, spawned := 0, stopped := current - clamped,
      pool := { p with workers := p.workers.take clamped } }
  else
    { result := current, spawned := 0, stopped := 0, pool := p }

/-- `WorkerPool.shutdown`: set every worker's stop event, join/terminate
each one, and clear both lists, leaving the pool empty. -/
def WorkerPool.shutdown (p : WorkerPool) : WorkerPool :=
  { p with workers := [] }

end UpsBenchmark

/-!
### Binary64 float model

`calculate_battery_percent` runs on Python floats (IEEE-754 binary64).
The exact-rational embedding above idealizes that arithmetic; the model
below performs it bit-faithfully in the normal range, representing a
double as mantissa × 2^exponent over the integers and rounding every
operation to nearest, ties to even.  Overflow, infinities and subnormals
are not modelled; no value in these scripts comes near them.
-/

/-- Fuel-driven floor of the base-2 logarithm: `floorLog2Aux fuel n` is
`⌊log₂ n⌋` whenever `n < 2 ^ fuel` (the fuel only bounds recursion). -/
def floorLog2Aux : ℕ → ℕ → ℕ
  | 0, _ => 0
  | fuel + 1, n => if n < 2 then 0 else floorLog2Aux fuel (n / 2) + 1

/-- `⌊log₂ n⌋`, valid for every `n < 2 ^ 4096` — far beyond anything in
this development. -/
def floorLog2 (n : ℕ) : ℕ := floorLog2Aux 4096 n

/-- An IEEE-754 binary64 value in the normal range, as mantissa `m` times
`2 ^ e`.  Canonical form: `m = 0 ∧ e = 0`, or `2^52 ≤ |m| < 2^53`; every
operation below returns canonical form, so structural equality is value
equality. -/
structure F64 where
  m : ℤ
  e : ℤ
deriving DecidableEq, Repr

/-- Correctly round the rational `(n / d) · 2 ^ e` (with `d > 0`) to the
nearest binary64 value, ties to even — the rounding every IEEE-754
binary64 operation performs on its exact result. -/
def F64.round (n : ℤ) (d : ℤ) (e : ℤ) : F64 :=
  if n = 0 then ⟨0, 0⟩
  else
    let a := n.natAbs
    let b := d.natAbs
    let f0 : ℤ := (floorLog2 a : ℤ) - (floorLog2 b : ℤ)
    let f := if b * 2 ^ f0.toNat ≤ a * 2 ^ (-f0).toNat then f0 else f0 - 1
    let k := 52 - f
    let nx := a * 2 ^ k.toNat
    let dx := b * 2 ^ (-k).toNat
    let m0 := nx / dx
    let rem := nx % dx
    let m1 := if 2 * rem < dx then m0
              else if dx < 2 * rem then m0 + 1
              else if m0 % 2 = 0 then m0 else m0 + 1
    if m1 = 2 ^ 53 then
      ⟨if n < 0 then -(2 ^ 52 : ℤ) else 2 ^ 52, f - 51 + e⟩
    else
      ⟨if n < 0 then -(m1 : ℤ) else (m1 : ℤ), f - 52 + e⟩

/-- The double a small integer converts to (exact for `|z| < 2^53`). -/
def F64.ofInt (z : ℤ) : F64 := F64.round z 1 0

/-- The double nearest to `n / d`: models a decimal literal such as
`4.2` (= `ofFrac 21 5`) or `12.6` (= `ofFrac 63 5`). -/
def F64.ofFrac (n d : ℤ) : F64 := F64.round n d 0

/-- IEEE binary64 addition: round the exact sum. -/
def F64.add (x y : F64) : F64 :=
  let e := if x.e ≤ y.e then x.e else y.e
  F64.round (x.m * 2 ^ (x.e - e).toNat + y.m * 2 ^ (y.e - e).toNat) 1 e

/-- IEEE binary64 subtraction: round the exact difference (negation is
exact on floats). -/
def F64.sub (x y : F64) : F64 := F64.add x ⟨-y.m, y.e⟩

/-- IEEE binary64 multiplication: round the exact product. -/
def F64.mul (x y : F64) : F64 := F64.round (x.m * y.m) 1 (x.e + y.e)

/-- IEEE binary64 division: round the exact quotient. -/
def F64.div (x y : F64) : F64 :=
  F64.round (if y.m < 0 then -x.m else x.m) (if y.m < 0 then -y.m else y.m) (x.e - y.e)

/-- Value comparison `x ≤ y` on binary64 (exact, as Python's `<=`/`min`/
`max` compare doubles). -/
def F64.ble (x y : F64) : Bool :=
  let e := if x.e ≤ y.e then x.e else y.e
  x.m * 2 ^ (x.e - e).toNat ≤ y.m * 2 ^ (y.e - e).toNat

/-- The exact rational value of a binary64 number. -/
def F64.val (x : F64) : ℚ := (x.m : ℚ) * (2 : ℚ) ^ x.e

namespace Ina219

/-- `calculate_battery_percent` as the interpreter actually computes it:
every Python float operation is a rounded binary64 operation.  The
literal `4.2` is the double `F64.ofFrac 21 5`; `3.0 * cell_count` and
`100` are exact; `max`/`min` compare values exactly.  The exact-rational
`calculate_battery_percent` above idealizes away this rounding. -/
def calculate_battery_percent64 (voltage : F64) (cell_count : ℕ) : F64 :=
  let voltage_full := F64.mul (F64.ofFrac 21 5) (F64.ofInt cell_count)
  let voltage_empty := F64.mul (F64.ofInt 3) (F64.ofInt cell_count)
  let voltage_range := F64.sub voltage_full voltage_empty
  let percent := F64.mul (F64.div (F64.sub voltage voltage_empty) voltage_range)
    (F64.ofInt 100)
  let clamped := if F64.ble percent (F64.ofInt 100) then percent else F64.ofInt 100
  if F64.ble (F64.ofInt 0) clamped then clamped else F64.ofInt 0

end Ina219

set_option maxRecDepth 40000

/-! ### Helper lemmas -/

/-- A failed read never touches the warning flag (battery monitor). -/
lemma ina219_fail_warning (cfg : Ina219.Config) (st : MonitorState) :
    (Ina219.step cfg st Option.none).2.warning_active = st.warning_active := by
  simp only [Ina219.step]
  split <;> rfl

/-- A failed read never touches the warning flag (temperature monitor). -/
lemma pct2075_fail_warning (cfg : Pct2075.Config) (st : MonitorState) :
    (Pct2075.step cfg st Option.none).2.warning_active = st.warning_active := by
  simp only [Pct2075.step]
  split <;> rfl

/-- A failed read never touches the warning flag (thermocouple monitor). -/
lemma mcp9601_fail_warning (cfg : Mcp9601.Config) (st : MonitorState) :
    (Mcp9601.step cfg st Option.none).2.warning_active = st.warning_active := by
  simp only [Mcp9601.step]
  split <;> rfl

/-! ### Claims -/

/-- C1: for the battery monitor, charging is `current_ma > 0`, and a
reading taken while charging never makes the evaluate step emit
`Shutdown`, no matter how low the computed battery percent is. -/
theorem C1_charging_never_shutdown :
    (∀ r : Ina219.Reading, r.is_charging ↔ 0 < r.current_ma) ∧
    (∀ (cfg : Ina219.Config) (st : MonitorState) (r : Ina219.Reading),
      r.is_charging →
      (Ina219.step cfg st (Option.some r)).1 ≠ Action.shutdown) := by
  refine ⟨fun r => Iff.rfl, fun cfg st r h => ?_⟩
  simp only [Ina219.step, Ina219.Reading.is_charging] at *
  rw [if_neg (by simp [h]), if_neg (by simp [h])]
  split <;> simp

/-- C1 witness: a concrete charging reading at 0% battery does not shut
down. -/
theorem C1_witness :
    (Ina219.step ⟨15, 5, 3⟩ initialState
      (Option.some ⟨9, 0, 500⟩)).1 ≠ Action.shutdown :=
  C1_charging_never_shutdown.2 ⟨15, 5, 3⟩ initialState ⟨9, 0, 500⟩ (by norm_num)

/-- C9: the thermocouple monitor's step depends only on the hot-junction
temperature; the ambient/reference value never influences the action or
the resulting state. -/
theorem C9_ambient_noninterference :
    ∀ (cfg : Mcp9601.Config) (st : MonitorState) (hot ambient ambient' : ℚ),
      Mcp9601.step cfg st (Option.some ⟨hot, ambient⟩) =
      Mcp9601.step cfg st (Option.some ⟨hot, ambient'⟩) :=
  fun _ _ _ _ _ => rfl

/-- C10: for the battery monitor, a reading taken while charging never
raises a warning, and if the warning is active, a charging reading clears
it (even when the battery percent is still at or below the warning
threshold). -/
theorem C10_charging_warning_behavior :
    ∀ (cfg : Ina219.Config) (st : MonitorState) (r : Ina219.Reading),
      r.is_charging →
      (Ina219.step cfg st (Option.some r)).1 ≠ Action.warnRaised ∧
      (st.warning_active = true →
        (Ina219.step cfg st (Option.some r)).1 = Action.warnCleared ∧
        (Ina219.step cfg st (Option.some r)).2.warning_active = false) := by
  intro cfg st r h
  simp only [Ina219.step, Ina219.Reading.is_charging] at *
  rw [if_neg (by simp [h]), if_neg (by simp [h])]
  constructor
  · split <;> simp
  · intro hw
    simp [hw]

/-- C10 witness: a concrete charging reading at 4% battery with the
warning active clears it and raises nothing. -/
theorem C10_witness :
    (Ina219.step ⟨15, 5, 3⟩ ⟨0, true⟩
      (Option.some ⟨9.144, 0, 500⟩)).1 ≠ Action.warnRaised ∧
    (Ina219.step ⟨15, 5, 3⟩ ⟨0, true⟩
      (Option.some ⟨9.144, 0, 500⟩)).1 = Action.warnCleared ∧
    (Ina219.step ⟨15, 5, 3⟩ ⟨0, true⟩
      (Option.some ⟨9.144, 0, 500⟩)).2.warning_active = false := by
  have h := C10_charging_warning_behavior ⟨15, 5, 3⟩ ⟨0, true⟩ ⟨9.144, 0, 500⟩ (by norm_num)
  exact ⟨h.1, (h.2 rfl).1, (h.2 rfl).2⟩

/-- C8: the temperature monitor with warning 70 and shutdown 80, starting
with no active warning, maps the reading sequence [65, 72, 74, 81] to the
actions [None, WarnRaised, None, Shutdown]. -/
theorem C8_temperature_scenario :
    (runSteps (Pct2075.step ⟨70, 80⟩) initialState
      [Option.some 65, Option.some 72, Option.some 74, Option.some 81]).1 =
    [Action.none, Action.warnRaised, Action.none, Action.shutdown] := by
  decide

/-- C2 counterexample: with 3 cells, warning 15% and shutdown 5%, the
charging voltage sequence [10.8V, 9.504V, 9.144V] (computed percents
[50, 14, 4]) does NOT produce [None, WarnRaised, WarnRaised]: while
charging the warning branch is skipped entirely, so no warning is ever
raised. -/
theorem C2_counterexample :
    (runSteps (Ina219.step ⟨15, 5, 3⟩) initialState
      [Option.some ⟨10.8, 0, 500⟩, Option.some ⟨9.504, 0, 500⟩,
        Option.some ⟨9.144, 0, 500⟩]).1 ≠
    [Action.none, Action.warnRaised, Action.warnRaised] := by
  have h : (runSteps (Ina219.step ⟨15, 5, 3⟩) initialState
      [Option.some ⟨10.8, 0, 500⟩, Option.some ⟨9.504, 0, 500⟩,
        Option.some ⟨9.144, 0, 500⟩]).1 = [Action.none, Action.none, Action.none] := by
    norm_num [runSteps, Ina219.step, Ina219.calculate_battery_percent,
      Ina219.CELL_VOLTAGE_FULL, Ina219.CELL_VOLTAGE_EMPTY, initialState, min_def, max_def]
    decide
  rw [h]
  decide

/-- C2 amended: battery monitor, 3 cells, warning 15%, shutdown 5%; the
voltages [10.8V, 9.504V, 9.144V] compute to percents [50, 14, 4]; while
discharging they produce [None, WarnRaised, Shutdown]; while charging
they produce [None, None, None] — charging suppresses the warning branch
as well as shutdown, so neither a warning nor a Shutdown is emitted. -/
theorem C2_amended_scenario :
    Ina219.calculate_battery_percent (10.8 + 0) 3 = 50 ∧
    Ina219.calculate_battery_percent (9.504 + 0) 3 = 14 ∧
    Ina219.calculate_battery_percent (9.144 + 0) 3 = 4 ∧
    (runSteps (Ina219.step ⟨15, 5, 3⟩) initialState
      [Option.some ⟨10.8, 0, -500⟩, Option.some ⟨9.504, 0, -500⟩,
        Option.some ⟨9.144, 0, -500⟩]).1 =
      [Action.none, Action.warnRaised, Action.shutdown] ∧
    (runSteps (Ina219.step ⟨15, 5, 3⟩) initialState
      [Option.some ⟨10.8, 0, 500⟩, Option.some ⟨9.504, 0, 500⟩,
        Option.some ⟨9.144, 0, 500⟩]).1 =
      [Action.none, Action.none, Action.none] ∧
    Action.shutdown ∉
      (runSteps (Ina219.step ⟨15, 5, 3⟩) initialState
        [Option.some ⟨10.8, 0, 500⟩, Option.some ⟨9.504, 0, 500⟩,
          Option.some ⟨9.144, 0, 500⟩]).1 := by
  refine ⟨?_, ?_, ?_, ?_, ?_, ?_⟩ <;>
    norm_num [runSteps, Ina219.step, Ina219.calculate_battery_percent,
      Ina219.CELL_VOLTAGE_FULL, Ina219.CELL_VOLTAGE_EMPTY, initialState, min_def, max_def] <;>
    decide

/-- C3: for every monitor, with the warning already active, a reading at or
beyond the warning threshold raises no second warning; and a reading back
on the safe side clears the warning exactly once — it emits `WarnCleared`
and resets the flag, after which further safe readings emit nothing. -/
theorem C3_hysteresis :
    (∀ (cfg : Pct2075.Config) (st : MonitorState) (t : ℚ),
      st.warning_active = true → cfg.warning_temp_c ≤ t →
      (Pct2075.step cfg st (Option.some t)).1 ≠ Action.warnRaised) ∧
    (∀ (cfg : Pct2075.Config) (st : MonitorState) (t : ℚ),
      cfg.warning_temp_c < cfg.shutdown_temp_c →
      st.warning_active = true → t < cfg.warning_temp_c →
      (Pct2075.step cfg st (Option.some t)).1 = Action.warnCleared ∧
      (Pct2075.step cfg st (Option.some t)).2.warning_active = false) ∧
    (∀ (cfg : Pct2075.Config) (st : MonitorState) (t : ℚ),
      cfg.warning_temp_c < cfg.shutdown_temp_c →
      st.warning_active = false → t < cfg.warning_temp_c →
      (Pct2075.step cfg st (Option.some t)).1 = Action.none ∧
      (Pct2075.step cfg st (Option.some t)).2.warning_active = false) ∧
    (∀ (cfg : Mcp9601.Config) (st : MonitorState) (r : Mcp9601.Reading),
      st.warning_active = true → cfg.warning_temp_c ≤ r.temperature →
      (Mcp9601.step cfg st (Option.some r)).1 ≠ Action.warnRaised) ∧
    (∀ (cfg : Mcp9601.Config) (st : MonitorState) (r : Mcp9601.Reading),
      cfg.warning_temp_c < cfg.shutdown_temp_c →
      st.warning_active = true → r.temperature < cfg.warning_temp_c →
      (Mcp9601.step cfg st (Option.some r)).1 = Action.warnCleared ∧
      (Mcp9601.step cfg st (Option.some r)).2.warning_active = false) ∧
    (∀ (cfg : Mcp9601.Config) (st : MonitorState) (r : Mcp9601.Reading),
      cfg.warning_temp_c < cfg.shutdown_temp_c →
      st.warning_active = false → r.temperature < cfg.warning_temp_c →
      (Mcp9601.step cfg st (Option.some r)).1 = Action.none ∧
      (Mcp9601.step cfg st (Option.some r)).2.warning_active = false) ∧
    (∀ (cfg : Ina219.Config) (st : MonitorState) (r : Ina219.Reading),
      st.warning_active = true →
      Ina219.calculate_battery_percent (r.bus_voltage + r.shunt_voltage)
          cfg.battery_cell_count ≤ cfg.warning_battery_percent →
      (Ina219.step cfg st (Option.some r)).1 ≠ Action.warnRaised) ∧
    (∀ (cfg : Ina219.Config) (st : MonitorState) (r : Ina219.Reading),
      cfg.shutdown_battery_percent < cfg.warning_battery_percent →
      st.warning_active = true →
      cfg.warning_battery_percent <
        Ina219.calculate_battery_percent (r.bus_voltage + r.shunt_voltage)
          cfg.battery_cell_count →
      (Ina219.step cfg st (Option.some r)).1 = Action.warnCleared ∧
      (Ina219.step cfg st (Option.some r)).2.warning_active = false) ∧
    (∀ (cfg : Ina219.Config) (st : MonitorState) (r : Ina219.Reading),
      cfg.shutdown_battery_percent < cfg.warning_battery_percent →
      st.warning_active = false →
      cfg.warning_battery_percent <
        Ina219.calculate_battery_percent (r.bus_voltage + r.shunt_voltage)
          cfg.battery_cell_count →
      (Ina219.step cfg st (Option.some r)).1 = Action.none ∧
      (Ina219.step cfg st (Option.some r)).2.warning_active = false) := by
  refine ⟨?_, ?_, ?_, ?_, ?_, ?_, ?_, ?_, ?_⟩
  · intro cfg st t hw ht
    simp only [Pct2075.step]
    split_ifs <;> simp_all
  · intro cfg st t hord hw ht
    have h1 : ¬ t ≥ cfg.shutdown_temp_c := by linarith
    have h2 : ¬ t ≥ cfg.warning_temp_c := by linarith
    simp [Pct2075.step, h1, h2, hw]
  · intro cfg st t hord hw ht
    have h1 : ¬ t ≥ cfg.shutdown_temp_c := by linarith
    have h2 : ¬ t ≥ cfg.warning_temp_c := by linarith
    simp [Pct2075.step, h1, h2, hw]
  · intro cfg st r hw ht
    simp only [Mcp9601.step]
    split_ifs <;> simp_all
  · intro cfg st r hord hw ht
    have h1 : ¬ r.temperature ≥ cfg.shutdown_temp_c := by linarith
    have h2 : ¬ r.temperature ≥ cfg.warning_temp_c := by linarith
    simp [Mcp9601.step, h1, h2, hw]
  · intro cfg st r hord hw ht
    have h1 : ¬ r.temperature ≥ cfg.shutdown_temp_c := by linarith
    have h2 : ¬ r.temperature ≥ cfg.warning_temp_c := by linarith
    simp [Mcp9601.step, h1, h2, hw]
  · intro cfg st r hw hpct
    simp only [Ina219.step]
    split_ifs <;> simp_all
  · intro cfg st r hord hw hpct
    have h1 : ¬ (¬ r.is_charging ∧
        Ina219.calculate_battery_percent (r.bus_voltage + r.shunt_voltage)
          cfg.battery_cell_count ≤ cfg.shutdown_battery_percent) := by
      rintro ⟨-, hle⟩; linarith
    have h2 : ¬ (¬ r.is_charging ∧
        Ina219.calculate_battery_percent (r.bus_voltage + r.shunt_voltage)
          cfg.battery_cell_count ≤ cfg.warning_battery_percent) := by
      rintro ⟨-, hle⟩; linarith
    simp only [Ina219.step]
    rw [if_neg h1, if_neg h2]
    simp [hw]
  · intro cfg st r hord hw hpct
    have h1 : ¬ (¬ r.is_charging ∧
        Ina219.calculate_battery_percent (r.bus_voltage + r.shunt_voltage)
          cfg.battery_cell_count ≤ cfg.shutdown_battery_percent) := by
      rintro ⟨-, hle⟩; linarith
    have h2 : ¬ (¬ r.is_charging ∧
        Ina219.calculate_battery_percent (r.bus_voltage + r.shunt_voltage)
          cfg.battery_cell_count ≤ cfg.warning_battery_percent) := by
      rintro ⟨-, hle⟩; linarith
    simp only [Ina219.step]
    rw [if_neg h1, if_neg h2]
    simp [hw]

/-- C3 witness: concrete hysteresis scenarios for all three monitors. -/
theorem C3_witness :
    (Pct2075.step ⟨70, 80⟩ ⟨0, true⟩ (Option.some 75)).1 ≠ Action.warnRaised ∧
    ((Pct2075.step ⟨70, 80⟩ ⟨0, true⟩ (Option.some 60)).1 = Action.warnCleared ∧
      (Pct2075.step ⟨70, 80⟩ ⟨0, true⟩ (Option.some 60)).2.warning_active = false) ∧
    ((Pct2075.step ⟨70, 80⟩ ⟨0, false⟩ (Option.some 60)).1 = Action.none ∧
      (Pct2075.step ⟨70, 80⟩ ⟨0, false⟩ (Option.some 60)).2.warning_active = false) ∧
    (Mcp9601.step ⟨60, 75, "K"⟩ ⟨0, true⟩ (Option.some ⟨65, 20⟩)).1 ≠ Action.warnRaised ∧
    ((Mcp9601.step ⟨60, 75, "K"⟩ ⟨0, true⟩ (Option.some ⟨50, 20⟩)).1 = Action.warnCleared ∧
      (Mcp9601.step ⟨60, 75, "K"⟩ ⟨0, true⟩
        (Option.some ⟨50, 20⟩)).2.warning_active = false) ∧
    ((Mcp9601.step ⟨60, 75, "K"⟩ ⟨0, false⟩ (Option.some ⟨50, 20⟩)).1 = Action.none ∧
      (Mcp9601.step ⟨60, 75, "K"⟩ ⟨0, false⟩
        (Option.some ⟨50, 20⟩)).2.warning_active = false) ∧
    (Ina219.step ⟨15, 5, 3⟩ ⟨0, true⟩
      (Option.some ⟨9.504, 0, -500⟩)).1 ≠ Action.warnRaised ∧
    ((Ina219.step ⟨15, 5, 3⟩ ⟨0, true⟩
        (Option.some ⟨10.8, 0, -500⟩)).1 = Action.warnCleared ∧
      (Ina219.step ⟨15, 5, 3⟩ ⟨0, true⟩
        (Option.some ⟨10.8, 0, -500⟩)).2.warning_active = false) ∧
    ((Ina219.step ⟨15, 5, 3⟩ ⟨0, false⟩
        (Option.some ⟨10.8, 0, -500⟩)).1 = Action.none ∧
      (Ina219.step ⟨15, 5, 3⟩ ⟨0, false⟩
        (Option.some ⟨10.8, 0, -500⟩)).2.warning_active = false) := by
  obtain ⟨h1, h2, h3, h4, h5, h6, h7, h8, h9⟩ := C3_hysteresis
  refine ⟨h1 ⟨70, 80⟩ ⟨0, true⟩ 75 rfl (by norm_num),
    h2 ⟨70, 80⟩ ⟨0, true⟩ 60 (by norm_num) rfl (by norm_num),
    h3 ⟨70, 80⟩ ⟨0, false⟩ 60 (by norm_num) rfl (by norm_num),
    h4 ⟨60, 75, "K"⟩ ⟨0, true⟩ ⟨65, 20⟩ rfl (by norm_num),
    h5 ⟨60, 75, "K"⟩ ⟨0, true⟩ ⟨50, 20⟩ (by norm_num) rfl (by norm_num),
    h6 ⟨60, 75, "K"⟩ ⟨0, false⟩ ⟨50, 20⟩ (by norm_num) rfl (by norm_num),
    h7 ⟨15, 5, 3⟩ ⟨0, true⟩ ⟨9.504, 0, -500⟩ rfl ?_,
    h8 ⟨15, 5, 3⟩ ⟨0, true⟩ ⟨10.8, 0, -500⟩ (by norm_num) rfl ?_,
    h9 ⟨15, 5, 3⟩ ⟨0, false⟩ ⟨10.8, 0, -500⟩ (by norm_num) rfl ?_⟩ <;>
    norm_num [Ina219.calculate_battery_percent, Ina219.CELL_VOLTAGE_FULL,
      Ina219.CELL_VOLTAGE_EMPTY, min_def, max_def]

/-- C4: for every monitor, five consecutive read failures starting from a
zero failure counter produce exactly one critical escalation (on the
fifth), reset the counter to 0, never emit `Shutdown`, and leave the
warning flag untouched; moreover no single read failure ever changes the
warning flag. -/
theorem C4_failure_ceiling :
    (∀ (cfg : Pct2075.Config) (st : MonitorState), st.consecutive_failures = 0 →
      (runSteps (Pct2075.step cfg) st
          ([Option.none, Option.none, Option.none, Option.none, Option.none] :
            List (Option ℚ))).1 =
        [Action.none, Action.none, Action.none, Action.none, Action.critical] ∧
      (runSteps (Pct2075.step cfg) st
          ([Option.none, Option.none, Option.none, Option.none, Option.none] :
            List (Option ℚ))).1.count Action.critical = 1 ∧
      Action.shutdown ∉
        (runSteps (Pct2075.step cfg) st
          ([Option.none, Option.none, Option.none, Option.none, Option.none] :
            List (Option ℚ))).1 ∧
      (runSteps (Pct2075.step cfg) st
          ([Option.none, Option.none, Option.none, Option.none, Option.none] :
            List (Option ℚ))).2.consecutive_failures = 0 ∧
      (runSteps (Pct2075.step cfg) st
          ([Option.none, Option.none, Option.none, Option.none, Option.none] :
            List (Option ℚ))).2.warning_active = st.warning_active) ∧
    (∀ (cfg : Mcp9601.Config) (st : MonitorState), st.consecutive_failures = 0 →
      (runSteps (Mcp9601.step cfg) st
          ([Option.none, Option.none, Option.none, Option.none, Option.none] :
            List (Option Mcp9601.Reading))).1 =
        [Action.none, Action.none, Action.none, Action.none, Action.critical] ∧
      (runSteps (Mcp9601.step cfg) st
          ([Option.none, Option.none, Option.none, Option.none, Option.none] :
            List (Option Mcp9601.Reading))).1.count Action.critical = 1 ∧
      Action.shutdown ∉
        (runSteps (Mcp9601.step cfg) st
          ([Option.none, Option.none, Option.none, Option.none, Option.none] :
            List (Option Mcp9601.Reading))).1 ∧
      (runSteps (Mcp9601.step cfg) st
          ([Option.none, Option.none, Option.none, Option.none, Option.none] :
            List (Option Mcp9601.Reading))).2.consecutive_failures = 0 ∧
      (runSteps (Mcp9601.step cfg) st
          ([Option.none, Option.none, Option.none, Option.none, Option.none] :
            List (Option Mcp9601.Reading))).2.warning_active = st.warning_active) ∧
    (∀ (cfg : Ina219.Config) (st : MonitorState), st.consecutive_failures = 0 →
      (runSteps (Ina219.step cfg) st
          ([Option.none, Option.none, Option.none, Option.none, Option.none] :
            List (Option Ina219.Reading))).1 =
        [Action.none, Action.none, Action.none, Action.none, Action.critical] ∧
      (runSteps (Ina219.step cfg) st
          ([Option.none, Option.none, Option.none, Option.none, Option.none] :
            List (Option Ina219.Reading))).1.count Action.critical = 1 ∧
      Action.shutdown ∉
        (runSteps (Ina219.step cfg) st
          ([Option.none, Option.none, Option.none, Option.none, Option.none] :
            List (Option Ina219.Reading))).1 ∧
      (runSteps (Ina219.step cfg) st
          ([Option.none, Option.none, Option.none, Option.none, Option.none] :
            List (Option Ina219.Reading))).2.consecutive_failures = 0 ∧
      (runSteps (Ina219.step cfg) st
          ([Option.none, Option.none, Option.none, Option.none, Option.none] :
            List (Option Ina219.Reading))).2.warning_active = st.warning_active) ∧
    (∀ (cfg : Pct2075.Config) (st : MonitorState),
      (Pct2075.step cfg st Option.none).2.warning_active = st.warning_active) ∧
    (∀ (cfg : Mcp9601.Config) (st : MonitorState),
      (Mcp9601.step cfg st Option.none).2.warning_active = st.warning_active) ∧
    (∀ (cfg : Ina219.Config) (st : MonitorState),
      (Ina219.step cfg st Option.none).2.warning_active = st.warning_active) := by
  refine ⟨?_, ?_, ?_, pct2075_fail_warning, mcp9601_fail_warning, ina219_fail_warning⟩
  · intro cfg st h0
    obtain ⟨f, b⟩ := st
    subst h0
    have hrun : runSteps (Pct2075.step cfg) ⟨0, b⟩
        ([Option.none, Option.none, Option.none, Option.none, Option.none] :
          List (Option ℚ)) =
        ([Action.none, Action.none, Action.none, Action.none, Action.critical], ⟨0, b⟩) := by
      norm_num [runSteps, Pct2075.step, MAX_CONSECUTIVE_FAILURES]
      simp
    exact ⟨by rw [hrun], by rw [hrun]; simp, by rw [hrun]; simp,
      by rw [hrun], by rw [hrun]⟩
  · intro cfg st h0
    obtain ⟨f, b⟩ := st
    subst h0
    have hrun : runSteps (Mcp9601.step cfg) ⟨0, b⟩
        ([Option.none, Option.none, Option.none, Option.none, Option.none] :
          List (Option Mcp9601.Reading)) =
        ([Action.none, Action.none, Action.none, Action.none, Action.critical], ⟨0, b⟩) := by
      norm_num [runSteps, Mcp9601.step, MAX_CONSECUTIVE_FAILURES]
      simp
    exact ⟨by rw [hrun], by rw [hrun]; simp, by rw [hrun]; simp,
      by rw [hrun], by rw [hrun]⟩
  · intro cfg st h0
    obtain ⟨f, b⟩ := st
    subst h0
    have hrun : runSteps (Ina219.step cfg) ⟨0, b⟩
        ([Option.none, Option.none, Option.none, Option.none, Option.none] :
          List (Option Ina219.Reading)) =
        ([Action.none, Action.none, Action.none, Action.none, Action.critical], ⟨0, b⟩) := by
      norm_num [runSteps, Ina219.step, MAX_CONSECUTIVE_FAILURES]
      simp
    exact ⟨by rw [hrun], by rw [hrun]; simp, by rw [hrun]; simp,
      by rw [hrun], by rw [hrun]⟩

/-- C4 witness: five failed reads of each monitor, from the initial state
with a concrete config, produce four silent retries then one critical
escalation. -/
theorem C4_witness :
    (runSteps (Pct2075.step ⟨70, 80⟩) initialState
        ([Option.none, Option.none, Option.none, Option.none, Option.none] :
          List (Option ℚ))).1 =
      [Action.none, Action.none, Action.none, Action.none, Action.critical] ∧
    (runSteps (Mcp9601.step ⟨60, 75, "K"⟩) initialState
        ([Option.none, Option.none, Option.none, Option.none, Option.none] :
          List (Option Mcp9601.Reading))).1 =
      [Action.none, Action.none, Action.none, Action.none, Action.critical] ∧
    (runSteps (Ina219.step ⟨15, 5, 3⟩) initialState
        ([Option.none, Option.none, Option.none, Option.none, Option.none] :
          List (Option Ina219.Reading))).1 =
      [Action.none, Action.none, Action.none, Action.none, Action.critical] :=
  ⟨(C4_failure_ceiling.1 ⟨70, 80⟩ initialState rfl).1,
    (C4_failure_ceiling.2.1 ⟨60, 75, "K"⟩ initialState rfl).1,
    (C4_failure_ceiling.2.2.1 ⟨15, 5, 3⟩ initialState rfl).1⟩

/-- C5 (amended): `calculate_battery_percent` is non-decreasing in the
voltage for any cell count in [1,6], equals 0 at `3.0×c` volts, equals
100 at `4.2×c` volts, always lies in [0,100], and matches the duplicate
definition in the benchmark tool; for a 3-cell pack it maps 9 V to 0,
10.8 V to 50, 13 V to 100 and 8 V to 0 — exactly, in the exact-rational
model and (last four conjuncts) in the program's binary64 arithmetic
alike.  At 12.6 V, however, the program returns
7036874417766397/70368744177664 = 99.99999999999996, not 100, because
`4.2 * 3` rounds to 12.600000000000001 > 12.6. -/
theorem C5_percent_interpolation :
    (∀ (c : ℕ) (v v' : ℚ), 1 ≤ c → c ≤ 6 → v ≤ v' →
      Ina219.calculate_battery_percent v c ≤ Ina219.calculate_battery_percent v' c) ∧
    (∀ c : ℕ, 1 ≤ c → c ≤ 6 → Ina219.calculate_battery_percent ((3:ℚ) * c) c = 0) ∧
    (∀ c : ℕ, 1 ≤ c → c ≤ 6 → Ina219.calculate_battery_percent ((4.2:ℚ) * c) c = 100) ∧
    (∀ (c : ℕ) (v : ℚ), 0 ≤ Ina219.calculate_battery_percent v c ∧
      Ina219.calculate_battery_percent v c ≤ 100) ∧
    (∀ (v : ℚ) (c : ℕ),
      UpsBenchmark.calculate_battery_percent v c = Ina219.calculate_battery_percent v c) ∧
    Ina219.calculate_battery_percent 9 3 = 0 ∧
    Ina219.calculate_battery_percent 10.8 3 = 50 ∧
    Ina219.calculate_battery_percent 13 3 = 100 ∧
    Ina219.calculate_battery_percent 8 3 = 0 ∧
    F64.val (Ina219.calculate_battery_percent64 (F64.ofFrac 63 5) 3) =
      7036874417766397 / 70368744177664 ∧
    Ina219.calculate_battery_percent64 (F64.ofInt 9) 3 = F64.ofInt 0 ∧
    Ina219.calculate_battery_percent64 (F64.ofFrac 54 5) 3 = F64.ofInt 50 ∧
    Ina219.calculate_battery_percent64 (F64.ofInt 13) 3 = F64.ofInt 100 ∧
    Ina219.calculate_battery_percent64 (F64.ofInt 8) 3 = F64.ofInt 0 := by
  refine ⟨?_, ?_, ?_, ?_, fun _ _ => rfl, ?_, ?_, ?_, ?_, ?_,
    by decide, by decide, by decide, by decide⟩
  · intro c v v' hc1 hc6 hv
    have hc : (1:ℚ) ≤ (c:ℚ) := by exact_mod_cast hc1
    simp only [Ina219.calculate_battery_percent, Ina219.CELL_VOLTAGE_FULL,
      Ina219.CELL_VOLTAGE_EMPTY]
    have hr : (0:ℚ) < (4.2:ℚ) * c - (3.0:ℚ) * c := by nlinarith
    gcongr
  · intro c hc1 hc6
    simp only [Ina219.calculate_battery_percent, Ina219.CELL_VOLTAGE_FULL,
      Ina219.CELL_VOLTAGE_EMPTY]
    norm_num
  · intro c hc1 hc6
    have hc : (1:ℚ) ≤ (c:ℚ) := by exact_mod_cast hc1
    have hr : (4.2:ℚ) * c - (3.0:ℚ) * c ≠ 0 := by nlinarith
    simp only [Ina219.calculate_battery_percent, Ina219.CELL_VOLTAGE_FULL,
      Ina219.CELL_VOLTAGE_EMPTY]
    rw [div_self hr, one_mul]
    norm_num
  · intro c v
    simp only [Ina219.calculate_battery_percent]
    exact ⟨le_max_left _ _, max_le (by norm_num) (min_le_left _ _)⟩
  · norm_num [Ina219.calculate_battery_percent, Ina219.CELL_VOLTAGE_FULL,
      Ina219.CELL_VOLTAGE_EMPTY, min_def, max_def]
  · norm_num [Ina219.calculate_battery_percent, Ina219.CELL_VOLTAGE_FULL,
      Ina219.CELL_VOLTAGE_EMPTY, min_def, max_def]
  · norm_num [Ina219.calculate_battery_percent, Ina219.CELL_VOLTAGE_FULL,
      Ina219.CELL_VOLTAGE_EMPTY, min_def, max_def]
  · norm_num [Ina219.calculate_battery_percent, Ina219.CELL_VOLTAGE_FULL,
      Ina219.CELL_VOLTAGE_EMPTY, min_def, max_def]
  · have h : Ina219.calculate_battery_percent64 (F64.ofFrac 63 5) 3 =
        ⟨7036874417766397, -46⟩ := by decide
    rw [h]
    norm_num [F64.val]

/-- C5 counterexample: under the program's binary64 arithmetic,
`4.2 * 3` rounds to 12.600000000000001, which is not the double 12.6, so
`calculate_battery_percent(12.6, 3)` returns 99.99999999999996 — strictly
below, and not equal to, the claimed 100.0. -/
theorem C5_counterexample :
    F64.mul (F64.ofFrac 21 5) (F64.ofInt 3) ≠ F64.ofFrac 63 5 ∧
    F64.val (Ina219.calculate_battery_percent64 (F64.ofFrac 63 5) 3) ≠ 100 ∧
    F64.val (Ina219.calculate_battery_percent64 (F64.ofFrac 63 5) 3) < 100 := by
  have h : Ina219.calculate_battery_percent64 (F64.ofFrac 63 5) 3 =
      ⟨7036874417766397, -46⟩ := by decide
  refine ⟨by decide, ?_, ?_⟩ <;> rw [h] <;> norm_num [F64.val]

/-- C5 witness: the hypothesis-bearing parts at cell count 3 and concrete
voltages. -/
theorem C5_witness :
    Ina219.calculate_battery_percent 9.5 3 ≤ Ina219.calculate_battery_percent 10 3 ∧
    Ina219.calculate_battery_percent ((3:ℚ) * (3:ℕ)) 3 = 0 ∧
    Ina219.calculate_battery_percent ((4.2:ℚ) * (3:ℕ)) 3 = 100 :=
  ⟨C5_percent_interpolation.1 3 9.5 10 (by norm_num) (by norm_num) (by norm_num),
    C5_percent_interpolation.2.1 3 (by norm_num) (by norm_num),
    C5_percent_interpolation.2.2.1 3 (by norm_num) (by norm_num)⟩

/-- C6: a configuration whose warning threshold is not strictly more
conservative than its shutdown threshold (battery: warning ≤ shutdown;
temperature: warning ≥ shutdown) makes startup exit with code 1 before
any loop iteration runs, for every monitor. -/
theorem C6_threshold_validation :
    (∀ (cfg : Ina219.Config) (rs : List (Option Ina219.Reading)),
      cfg.warning_battery_percent ≤ cfg.shutdown_battery_percent →
      Ina219.program cfg rs = Except.error 1) ∧
    (∀ (cfg : Pct2075.Config) (rs : List (Option ℚ)),
      cfg.warning_temp_c ≥ cfg.shutdown_temp_c →
      Pct2075.program cfg rs = Except.error 1) ∧
    (∀ (cfg : Mcp9601.Config) (rs : List (Option Mcp9601.Reading)),
      cfg.warning_temp_c ≥ cfg.shutdown_temp_c →
      Mcp9601.program cfg rs = Except.error 1) := by
  refine ⟨fun cfg rs h => ?_, fun cfg rs h => ?_, fun cfg rs h => ?_⟩
  · simp [Ina219.program, h]
  · simp [Pct2075.program, h]
  · simp [Mcp9601.program, h]

/-- C6 witness: concrete mis-ordered configs are rejected with exit code 1
for all three monitors. -/
theorem C6_witness :
    Ina219.program ⟨5, 15, 3⟩ [] = Except.error 1 ∧
    Pct2075.program ⟨80, 70⟩ [] = Except.error 1 ∧
    Mcp9601.program ⟨75, 60, "K"⟩ [] = Except.error 1 :=
  ⟨C6_threshold_validation.1 ⟨5, 15, 3⟩ [] (by norm_num),
    C6_threshold_validation.2.1 ⟨80, 70⟩ [] (by norm_num),
    C6_threshold_validation.2.2 ⟨75, 60, "K"⟩ [] (by norm_num)⟩

/-- `set_worker_count` returns the request clamped to `[0, max_workers]`. -/
lemma set_worker_count_result (p : UpsBenchmark.WorkerPool) (count : ℤ) :
    ((p.set_worker_count count).result : ℤ) = min (max 0 count) (p.max_workers : ℤ) := by
  simp only [UpsBenchmark.WorkerPool.set_worker_count]
  split_ifs <;> dsimp only <;> omega

/-- After `set_worker_count` the pool holds exactly the returned number of
workers. -/
lemma set_worker_count_length (p : UpsBenchmark.WorkerPool) (count : ℤ) :
    (p.set_worker_count count).pool.workers.length = (p.set_worker_count count).result := by
  simp only [UpsBenchmark.WorkerPool.set_worker_count]
  split_ifs <;> simp [List.length_take] <;> omega

/-- `set_worker_count` never changes the pool's bound. -/
lemma set_worker_count_max (p : UpsBenchmark.WorkerPool) (count : ℤ) :
    (p.set_worker_count count).pool.max_workers = p.max_workers := by
  simp only [UpsBenchmark.WorkerPool.set_worker_count]
  split_ifs <;> rfl

/-- A pool already at the clamped target is left alone: nothing is spawned
or stopped. -/
lemma set_worker_count_fixed (q : UpsBenchmark.WorkerPool) (count : ℤ)
    (h : q.workers.length = (max 0 (min count (q.max_workers : ℤ))).toNat) :
    q.set_worker_count count = ⟨q.workers.length, 0, 0, q⟩ := by
  simp only [UpsBenchmark.WorkerPool.set_worker_count]
  rw [if_neg (by omega), if_neg (by omega)]

/-- C7: `set_worker_count` returns `min(max(0, requested), max_workers)`
and leaves exactly that many workers in the pool; a repeated call with
the same target spawns and stops nothing and leaves the pool unchanged;
`shutdown` always empties the pool and is idempotent. -/
theorem C7_worker_pool :
    (∀ (p : UpsBenchmark.WorkerPool) (count : ℤ),
      ((p.set_worker_count count).result : ℤ) = min (max 0 count) (p.max_workers : ℤ)) ∧
    (∀ (p : UpsBenchmark.WorkerPool) (count : ℤ),
      (p.set_worker_count count).pool.workers.length = (p.set_worker_count count).result) ∧
    (∀ (p : UpsBenchmark.WorkerPool) (count : ℤ),
      ((p.set_worker_count count).pool.set_worker_count count).spawned = 0 ∧
      ((p.set_worker_count count).pool.set_worker_count count).stopped = 0 ∧
      ((p.set_worker_count count).pool.set_worker_count count).pool =
        (p.set_worker_count count).pool) ∧
    (∀ p : UpsBenchmark.WorkerPool,
      p.shutdown.workers.length = 0 ∧ p.shutdown.shutdown = p.shutdown) := by
  refine ⟨set_worker_count_result, set_worker_count_length, ?_, fun p => ⟨rfl, rfl⟩⟩
  intro p count
  have h1 := set_worker_count_length p count
  have h2 := set_worker_count_result p count
  have h3 := set_worker_count_max p count
  have hfix := set_worker_count_fixed (p.set_worker_count count).pool count (by rw [h3, h1]; omega)
  rw [hfix]
  exact ⟨rfl, rfl, rfl⟩

end CM5
